import Mathlib

/-!
# API gateway with service discovery: a verification development

A shallow embedding of the gateway of `practical3/api-gateway/main.go`
(gRPC gateway with a connection cache and a two-branch aggregation handler) and
of the routing and discovery functions of `practical2/api-gateway/main.go`.

Conventions of the embedding.

* A Go `error` is observed by the gateway only through `Error()` (and `%v`, `%w`,
  which print the same text), so `GoError` carries that text; an error coming back
  from a remote call additionally carries its gRPC status code.
* The external collaborators (Consul health query, `grpc.Dial`, JSON decoding of a
  request body, the four remote calls) are the fields of `Env`.
* Every call to a collaborator is recorded in a trace of `Event`s, so that
  "the registry was not consulted" or "no remote call was issued" can be stated.
* `http.Error(w, msg, code)` is recorded as `Response.error msg code`: the text
  handed to `http.Error` and the status code. The framing the library adds on the
  wire is not modelled.
* `json.NewEncoder(w).Encode(v)` writes `v` unless a price is an infinity or a NaN; the
  handlers drop its error, so a failed encoding leaves `Response.noBody`.
* `log.Printf` lines are not modelled.
-/

namespace Practical3

/-! ## Data model -/

/-- A Go `error` value as the gateway can observe it. -/
inductive GoError where
  /-- An error observed through its message only (`fmt.Errorf`, transport errors). -/
  | errorf (text : String)
  /-- An error returned by a remote call: gRPC status code and the `Error()` text. -/
  | rpc (code : Nat) (text : String)
  deriving DecidableEq, Repr

/-- The `Error()` method. -/
def GoError.Error : GoError → String
  | .errorf text => text
  | .rpc _ text => text

/-- The text with which the backends of this repository report a missing record:
`gorm.ErrRecordNotFound` surfaced through gRPC with code `Unknown`. -/
def recordNotFoundText : String := "rpc error: code = Unknown desc = record not found"

/-- Modelled from the spec: the typed remote call boundary returns "a remote error
(including a distinguishable not found)". A remote error is the not-found error when
it carries the gRPC code `NotFound` (5) or is the missing-record error of the
repository's backends. -/
def GoError.isNotFound : GoError → Bool
  | .errorf _ => false
  | .rpc code text => code == 5 || text == recordNotFoundText

/-- The type `*grpc.ClientConn`: a connection handle, compared by identity. -/
structure ClientConn where
  id : Nat
  deriving DecidableEq, Repr

/-- The type `consulapi.AgentService`, the two fields the gateway reads. -/
structure AgentService where
  Address : String
  Port : Int
  deriving DecidableEq, Repr

/-- The type `consulapi.ServiceEntry`. -/
structure ServiceEntry where
  Service : AgentService
  deriving DecidableEq, Repr

/-- The message `pb.User`. -/
structure User where
  Id : String
  Name : String
  Email : String
  deriving DecidableEq, Repr

/-- Whether a `float64`, given by its IEEE-754 bit pattern, is a finite number: the
eleven exponent bits are not all ones. The other patterns are the infinities and the
NaNs, which `encoding/json` refuses to encode. -/
def float64IsFinite (bits : Nat) : Bool :=
  (bits / 2 ^ 52) % 2048 != 2047

/-- The message `pb.Product`; `Price` is the IEEE-754 bit pattern of the `float64`. The
gateway does no arithmetic on it, but the JSON encoder looks at it: see
`float64IsFinite`. -/
structure Product where
  Id : String
  Name : String
  Price : Nat
  deriving DecidableEq, Repr

/-- The message `pb.CreateUserRequest`. -/
structure CreateUserRequest where
  Name : String
  Email : String
  deriving DecidableEq, Repr

/-- The message `pb.CreateProductRequest`. -/
structure CreateProductRequest where
  Name : String
  Price : Nat
  deriving DecidableEq, Repr

/-- The message `pb.UserResponse`; the field is a pointer, `none` is `nil`. -/
structure UserResponse where
  User : Option User
  deriving DecidableEq, Repr

/-- The message `pb.ProductResponse`. -/
structure ProductResponse where
  Product : Option Product
  deriving DecidableEq, Repr

/-- The struct `UserPurchaseData` (lines 27-30). -/
structure UserPurchaseData where
  User : Option User
  Product : Option Product
  deriving DecidableEq, Repr

/-- The map `connections map[string]*grpc.ClientConn`, as an association list with
at most one pair per key. -/
abbrev ConnMap := List (String × ClientConn)

/-- Map lookup `m[key]`. -/
def ConnMap.get : ConnMap → String → Option ClientConn
  | [], _ => none
  | (k, v) :: rest, key => if k = key then some v else ConnMap.get rest key

/-- Map assignment `m[key] = v`. -/
def ConnMap.set : ConnMap → String → ClientConn → ConnMap
  | [], key, v => [(key, v)]
  | (k, w) :: rest, key, v =>
    if k = key then (k, v) :: rest else (k, w) :: ConnMap.set rest key v

/-- The struct `ServiceDiscovery` (lines 21-25): the mutable part is the connection map; the
Consul client is the `health` field of `Env`, and the mutex makes each call of
`getServiceConnection` one atomic step. -/
structure ServiceDiscovery where
  connections : ConnMap
  deriving DecidableEq, Repr

/-- The external collaborators of the gateway. -/
structure Env where
  /-- The call `sd.consul.Health().Service(name, "", true, nil)`. -/
  health : String → Except GoError (List ServiceEntry)
  /-- The call `grpc.Dial(address, ...)`. -/
  dial : String → Except GoError ClientConn
  /-- The call `json.NewDecoder(r.Body).Decode(&req)` for a `CreateUserRequest`. -/
  decodeUser : String → Except GoError CreateUserRequest
  /-- The call `json.NewDecoder(r.Body).Decode(&req)` for a `CreateProductRequest`. -/
  decodeProduct : String → Except GoError CreateProductRequest
  /-- The call `client.CreateUser` over a connection. -/
  createUser : ClientConn → CreateUserRequest → Except GoError UserResponse
  /-- The call `client.GetUser` over a connection, by id. -/
  getUser : ClientConn → String → Except GoError UserResponse
  /-- The call `client.CreateProduct` over a connection. -/
  createProduct : ClientConn → CreateProductRequest → Except GoError ProductResponse
  /-- The call `client.GetProduct` over a connection, by id. -/
  getProduct : ClientConn → String → Except GoError ProductResponse

/-- One call to an external collaborator. -/
inductive Event where
  /-- The registry was asked for the healthy instances of a service. -/
  | registry (serviceName : String)
  /-- The dialer `grpc.Dial` was called with this target. -/
  | dial (address : String)
  /-- The request body was decoded. -/
  | decode
  /-- A remote call was issued: method name and connection. -/
  | rpc (method : String) (conn : ClientConn)
  deriving DecidableEq, Repr

/-- What is written to an `http.ResponseWriter`. -/
inductive Payload where
  | user (u : Option User)
  | product (p : Option Product)
  | purchase (d : UserPurchaseData)
  deriving DecidableEq, Repr

/-- Whether a product pointer can be encoded as JSON: `nil` is encoded as `null`, a
product is encoded unless its price is an infinity or a NaN. -/
def productEncodable : Option Product → Bool
  | none => true
  | some p => float64IsFinite p.Price

/-- Whether `json.NewEncoder(w).Encode` succeeds on a payload. A user holds strings
only and is always encoded. -/
def Payload.encodable : Payload → Bool
  | .user _ => true
  | .product p => productEncodable p
  | .purchase d => productEncodable d.Product

/-- The response of a handler. -/
inductive Response where
  /-- The call `http.Error(w, msg, code)`. -/
  | error (msg : String) (code : Nat)
  /-- Header `Content-Type: application/json` and the payload written by
  `json.NewEncoder(w).Encode(payload)`, with the default status. -/
  | json (payload : Payload)
  /-- Header `Content-Type: application/json` and nothing written: the default status
  with an empty body. -/
  | noBody
  deriving DecidableEq, Repr

/-- The status code of a response. -/
def Response.status : Response → Nat
  | .error _ code => code
  | .json _ => 200
  | .noBody => 200

/-- The two closing lines of every handler: the header is set and
`json.NewEncoder(w).Encode(payload)` is called; the encoder writes nothing when it
fails, and the handlers drop its error (lines 132, 152, 175, 195 and 257). -/
def writeJSON (payload : Payload) : Response :=
  match payload.encodable with
  | true => .json payload
  | false => .noBody

/-- An inbound request: the path variables of `mux.Vars` (an absent key reads as the
empty string) and the raw body. -/
structure Request where
  vars : String → String
  body : String

/-! ## The connection cache -/

/-- The outcome of `getServiceConnection`: the returned pair, the cache afterwards and
the collaborators that were called. -/
structure Resolution where
  result : Except GoError ClientConn
  sd : ServiceDiscovery
  trace : List Event

/-- The dial target `fmt.Sprintf("%s:%d", service.Address, service.Port)` (line 84). -/
def dialAddress (service : AgentService) : String :=
  service.Address ++ ":" ++ toString service.Port

/-- The method `ServiceDiscovery.getServiceConnection` (lines 66-94). -/
def getServiceConnection (E : Env) (sd : ServiceDiscovery) (serviceName : String) :
    Resolution :=
  match sd.connections.get serviceName with
  | some conn => ⟨.ok conn, sd, []⟩
  | none =>
    match E.health serviceName with
    | .error err =>
      ⟨.error (.errorf ("failed to discover service " ++ serviceName ++ ": " ++ err.Error)),
        sd, [.registry serviceName]⟩
    | .ok [] =>
      ⟨.error (.errorf ("no healthy instances of service " ++ serviceName ++ " found")),
        sd, [.registry serviceName]⟩
    | .ok (entry :: _) =>
      let address := dialAddress entry.Service
      match E.dial address with
      | .error err =>
        ⟨.error (.errorf ("failed to connect to service " ++ serviceName ++ " at " ++
            address ++ ": " ++ err.Error)),
          sd, [.registry serviceName, .dial address]⟩
      | .ok conn =>
        ⟨.ok conn, ⟨sd.connections.set serviceName conn⟩,
          [.registry serviceName, .dial address]⟩

/-- The function `getUsersClient` (lines 96-102): the typed client is a view of the connection. -/
def getUsersClient (E : Env) (sd : ServiceDiscovery) : Resolution :=
  getServiceConnection E sd "users-service"

/-- The function `getProductsClient` (lines 104-110). -/
def getProductsClient (E : Env) (sd : ServiceDiscovery) : Resolution :=
  getServiceConnection E sd "products-service"

/-! ## Single-entity handlers -/

/-- The outcome of a handler: the response, the cache afterwards and the collaborators
that were called, in order. -/
structure Handled where
  response : Response
  sd : ServiceDiscovery
  trace : List Event

/-- The handler `createUserHandler` (lines 112-133). -/
def createUserHandler (E : Env) (sd : ServiceDiscovery) (r : Request) : Handled :=
  let res := getUsersClient E sd
  match res.result with
  | .error err => ⟨.error ("Service unavailable: " ++ err.Error) 503, res.sd, res.trace⟩
  | .ok client =>
    match E.decodeUser r.body with
    | .error _ => ⟨.error "Invalid request body" 400, res.sd, res.trace ++ [.decode]⟩
    | .ok req =>
      match E.createUser client req with
      | .error err =>
        ⟨.error err.Error 500, res.sd, res.trace ++ [.decode, .rpc "CreateUser" client]⟩
      | .ok out =>
        ⟨writeJSON (.user out.User), res.sd,
          res.trace ++ [.decode, .rpc "CreateUser" client]⟩

/-- The handler `getUserHandler` (lines 135-153). -/
def getUserHandler (E : Env) (sd : ServiceDiscovery) (r : Request) : Handled :=
  let res := getUsersClient E sd
  match res.result with
  | .error err => ⟨.error ("Service unavailable: " ++ err.Error) 503, res.sd, res.trace⟩
  | .ok client =>
    let id := r.vars "id"
    match E.getUser client id with
    | .error err => ⟨.error err.Error 404, res.sd, res.trace ++ [.rpc "GetUser" client]⟩
    | .ok out => ⟨writeJSON (.user out.User), res.sd, res.trace ++ [.rpc "GetUser" client]⟩

/-- The handler `createProductHandler` (lines 155-176). -/
def createProductHandler (E : Env) (sd : ServiceDiscovery) (r : Request) : Handled :=
  let res := getProductsClient E sd
  match res.result with
  | .error err => ⟨.error ("Service unavailable: " ++ err.Error) 503, res.sd, res.trace⟩
  | .ok client =>
    match E.decodeProduct r.body with
    | .error _ => ⟨.error "Invalid request body" 400, res.sd, res.trace ++ [.decode]⟩
    | .ok req =>
      match E.createProduct client req with
      | .error err =>
        ⟨.error err.Error 500, res.sd, res.trace ++ [.decode, .rpc "CreateProduct" client]⟩
      | .ok out =>
        ⟨writeJSON (.product out.Product), res.sd,
          res.trace ++ [.decode, .rpc "CreateProduct" client]⟩

/-- The handler `getProductHandler` (lines 178-196). -/
def getProductHandler (E : Env) (sd : ServiceDiscovery) (r : Request) : Handled :=
  let res := getProductsClient E sd
  match res.result with
  | .error err => ⟨.error ("Service unavailable: " ++ err.Error) 503, res.sd, res.trace⟩
  | .ok client =>
    let id := r.vars "id"
    match E.getProduct client id with
    | .error err => ⟨.error err.Error 404, res.sd, res.trace ++ [.rpc "GetProduct" client]⟩
    | .ok out =>
      ⟨writeJSON (.product out.Product), res.sd,
        res.trace ++ [.rpc "GetProduct" client]⟩

/-! ## The aggregation handler

The two goroutines of `getPurchaseDataHandler` are modelled as two small state
machines over the shared state. A goroutine takes at most two steps: resolving its
client (atomic, the whole of `getServiceConnection` runs under the mutex) and the
remote call. A schedule, a list of booleans, says which goroutine takes the next step;
`wg.Wait()` lets both run to completion. -/

/-- Where a goroutine stands: before resolving its client, holding a client, finished. -/
inductive Pc where
  | start
  | resolved (client : ClientConn)
  | done
  deriving DecidableEq, Repr

/-- The shared cache and the local variables of `getPurchaseDataHandler` that the
goroutines write (lines 203-206), with the position of each goroutine. -/
structure FanOut where
  sd : ServiceDiscovery
  user : Option User
  product : Option Product
  userErr : Option GoError
  productErr : Option GoError
  userPc : Pc
  productPc : Pc
  trace : List Event

/-- One step of the first goroutine (lines 210-223). -/
def stepUser (E : Env) (userId : String) (s : FanOut) : FanOut :=
  match s.userPc with
  | .start =>
    let res := getUsersClient E s.sd
    match res.result with
    | .error err =>
      ⟨res.sd, s.user, s.product, some err, s.productErr, .done, s.productPc,
        s.trace ++ res.trace⟩
    | .ok client =>
      ⟨res.sd, s.user, s.product, s.userErr, s.productErr, .resolved client, s.productPc,
        s.trace ++ res.trace⟩
  | .resolved client =>
    match E.getUser client userId with
    | .error err =>
      ⟨s.sd, s.user, s.product, some err, s.productErr, .done, s.productPc,
        s.trace ++ [.rpc "GetUser" client]⟩
    | .ok out =>
      ⟨s.sd, out.User, s.product, s.userErr, s.productErr, .done, s.productPc,
        s.trace ++ [.rpc "GetUser" client]⟩
  | .done => s

/-- One step of the second goroutine (lines 225-238). -/
def stepProduct (E : Env) (productId : String) (s : FanOut) : FanOut :=
  match s.productPc with
  | .start =>
    let res := getProductsClient E s.sd
    match res.result with
    | .error err =>
      ⟨res.sd, s.user, s.product, s.userErr, some err, s.userPc, .done,
        s.trace ++ res.trace⟩
    | .ok client =>
      ⟨res.sd, s.user, s.product, s.userErr, s.productErr, s.userPc, .resolved client,
        s.trace ++ res.trace⟩
  | .resolved client =>
    match E.getProduct client productId with
    | .error err =>
      ⟨s.sd, s.user, s.product, s.userErr, some err, s.userPc, .done,
        s.trace ++ [.rpc "GetProduct" client]⟩
    | .ok out =>
      ⟨s.sd, s.user, out.Product, s.userErr, s.productErr, s.userPc, .done,
        s.trace ++ [.rpc "GetProduct" client]⟩
  | .done => s

/-- Run the goroutines along a schedule: `true` lets the first goroutine take a step,
`false` the second. -/
def runSchedule (E : Env) (userId productId : String) : List Bool → FanOut → FanOut
  | [], s => s
  | true :: rest, s => runSchedule E userId productId rest (stepUser E userId s)
  | false :: rest, s => runSchedule E userId productId rest (stepProduct E productId s)

/-- The join `wg.Wait()` (line 240): whatever each goroutine has left is run. -/
def waitAll (E : Env) (userId productId : String) (s : FanOut) : FanOut :=
  stepProduct E productId (stepProduct E productId (stepUser E userId (stepUser E userId s)))

/-- The sequential checks after the join (lines 242-257). -/
def respond (s : FanOut) : Response :=
  match s.userErr with
  | some userErr => .error ("Failed to get user: " ++ userErr.Error) 404
  | none =>
    match s.productErr with
    | some productErr => .error ("Failed to get product: " ++ productErr.Error) 404
    | none => writeJSON (.purchase ⟨s.user, s.product⟩)

/-- The handler `getPurchaseDataHandler` (lines 198-258), for a schedule of its two
goroutines. -/
def getPurchaseDataHandler (E : Env) (sd : ServiceDiscovery) (schedule : List Bool)
    (r : Request) : Handled :=
  let userId := r.vars "userId"
  let productId := r.vars "productId"
  let s0 : FanOut := ⟨sd, none, none, none, none, .start, .start, []⟩
  let s := waitAll E userId productId (runSchedule E userId productId schedule s0)
  ⟨respond s, s.sd, s.trace⟩

/-- What the first goroutine computes when run alone on a cache: the user, or the
error of the resolution or of the remote call. -/
def userBranch (E : Env) (sd : ServiceDiscovery) (userId : String) :
    Except GoError (Option User) :=
  match (getUsersClient E sd).result with
  | .error err => .error err
  | .ok client =>
    match E.getUser client userId with
    | .error err => .error err
    | .ok out => .ok out.User

/-- What the second goroutine computes when run alone on a cache. -/
def productBranch (E : Env) (sd : ServiceDiscovery) (productId : String) :
    Except GoError (Option Product) :=
  match (getProductsClient E sd).result with
  | .error err => .error err
  | .ok client =>
    match E.getProduct client productId with
    | .error err => .error err
    | .ok out => .ok out.Product

/-- The response as a function of what the two goroutines compute: the checks of lines
242-257 read off the two outcomes. -/
def joinOutcomes (u : Except GoError (Option User)) (p : Except GoError (Option Product)) :
    Response :=
  match u, p with
  | .error userErr, _ => .error ("Failed to get user: " ++ userErr.Error) 404
  | .ok _, .error productErr => .error ("Failed to get product: " ++ productErr.Error) 404
  | .ok user, .ok product => writeJSON (.purchase ⟨user, product⟩)

/-- The values the variables `user` and `userErr` will hold once the first goroutine
has finished, read off an intermediate state. -/
def userView (E : Env) (userId : String) (s : FanOut) : Option User × Option GoError :=
  match s.userPc with
  | .start =>
    match (getUsersClient E s.sd).result with
    | .error err => (s.user, some err)
    | .ok client =>
      match E.getUser client userId with
      | .error err => (s.user, some err)
      | .ok out => (out.User, s.userErr)
  | .resolved client =>
    match E.getUser client userId with
    | .error err => (s.user, some err)
    | .ok out => (out.User, s.userErr)
  | .done => (s.user, s.userErr)

/-- The values the variables `product` and `productErr` will hold once the second
goroutine has finished, read off an intermediate state. -/
def productView (E : Env) (productId : String) (s : FanOut) :
    Option Product × Option GoError :=
  match s.productPc with
  | .start =>
    match (getProductsClient E s.sd).result with
    | .error err => (s.product, some err)
    | .ok client =>
      match E.getProduct client productId with
      | .error err => (s.product, some err)
      | .ok out => (out.Product, s.productErr)
  | .resolved client =>
    match E.getProduct client productId with
    | .error err => (s.product, some err)
    | .ok out => (out.Product, s.productErr)
  | .done => (s.product, s.productErr)

/-- The environment with the registry answer replaced by a fixed one. -/
def Env.withHealth (E : Env) (answer : Except GoError (List ServiceEntry)) : Env :=
  Env.mk (fun _ => answer) E.dial E.decodeUser E.decodeProduct E.createUser E.getUser
    E.createProduct E.getProduct

/-! ## Concrete environments -/

/-- A user record of the demonstration backend. -/
def alice : User := ⟨"42", "Alice", "alice@example.com"⟩

/-- A product record of the demonstration backend. -/
def laptop : Product := ⟨"7", "Laptop", 4652007308841189376⟩

/-- A product record whose price is a NaN (bit pattern `0x7FF8000000000000`), as a
backend can return it: the `double` of the wire format and `double precision` of the
store both hold NaN. -/
def ghost : Product := ⟨"8", "Ghost", 9221120237041090560⟩

/-- An error of a remote call that is not a not-found error: gRPC code
`Unavailable` (14). -/
def unavailableError : GoError :=
  .rpc 14 "rpc error: code = Unavailable desc = connection refused"

/-- The missing-record error of the backends. -/
def recordNotFound : GoError := .rpc 2 recordNotFoundText

/-- A healthy deployment: one instance of each service, a user 42, a product 7 and a
product 8 whose price is a NaN; the id `boom` makes the backend unreachable, an empty
body does not decode. -/
def demoEnv : Env :=
  Env.mk
    (fun name =>
      if name = "users-service" then .ok [⟨⟨"users-host", 50051⟩⟩, ⟨⟨"users-spare", 50051⟩⟩]
      else if name = "products-service" then .ok [⟨⟨"products-host", 50052⟩⟩]
      else .ok [])
    (fun address =>
      if address = "users-host:50051" then .ok ⟨1⟩
      else if address = "products-host:50052" then .ok ⟨2⟩
      else .error (.errorf "dial failed"))
    (fun body => if body = "" then .error (.errorf "EOF") else .ok ⟨body, "a@example.com"⟩)
    (fun body => if body = "" then .error (.errorf "EOF") else .ok ⟨body, 0⟩)
    (fun _ req => .ok ⟨some ⟨"1", req.Name, req.Email⟩⟩)
    (fun _ id =>
      if id = "42" then .ok ⟨some alice⟩
      else if id = "boom" then .error unavailableError
      else .error recordNotFound)
    (fun _ req => .ok ⟨some ⟨"1", req.Name, req.Price⟩⟩)
    (fun _ id =>
      if id = "7" then .ok ⟨some laptop⟩
      else if id = "8" then .ok ⟨some ghost⟩
      else if id = "boom" then .error unavailableError
      else .error recordNotFound)

/-- The empty cache of a gateway that has just started (lines 45-48). -/
def freshSd : ServiceDiscovery := ⟨[]⟩

/-- Path variables of `GET /api/purchases/user/<userId>/product/<productId>`. -/
def purchaseVars (userId productId : String) : String → String :=
  fun key => if key = "userId" then userId else if key = "productId" then productId else ""

/-- Path variables of a single-entity `GET` by id. -/
def idVars (id : String) : String → String :=
  fun key => if key = "id" then id else ""

/-! ## Serialised callers of the cache -/

/-- Calls of `getServiceConnection` for one name, one after the other on the shared
cache: the mutex (lines 67-68) makes each call atomic, so concurrent callers run in
some such order. Each caller comes with the registry and dialer it would see. -/
def serialCalls (name : String) : List Env → ServiceDiscovery → List Resolution
  | [], _ => []
  | E :: later, sd =>
    getServiceConnection E sd name :: serialCalls name later (getServiceConnection E sd name).sd

/-- All collaborator calls of a sequence of resolutions, in order. -/
def allEvents : List Resolution → List Event
  | [] => []
  | r :: rs => r.trace ++ allEvents rs

/-- Whether an event is a call of the dialer. -/
def Event.isDial : Event → Bool
  | .dial _ => true
  | _ => false

/-- The number of calls of the dialer in a trace. -/
def dialCount (trace : List Event) : Nat :=
  (trace.filter Event.isDial).length

end Practical3

namespace Practical2

open Practical3

/-- The type `*url.URL`, as the text it was parsed from. -/
structure URL where
  raw : String
  deriving DecidableEq, Repr

/-- The external collaborators of `discoverService`. -/
structure Env where
  /-- The error of `consulapi.NewClient(config)`, `none` for `nil`. -/
  newClient : Option GoError
  /-- The call `consul.Health().Service(name, "", true, nil)`. -/
  health : String → Except GoError (List ServiceEntry)
  /-- The call `url.Parse`. -/
  parse : String → Except GoError URL

/-- The address `fmt.Sprintf("http://%s:%d", service.Address, service.Port)` (line 83). -/
def serviceAddress (service : AgentService) : String :=
  "http://" ++ service.Address ++ ":" ++ toString service.Port

/-- The function `discoverService` (lines 63-86). -/
def discoverService (E : Env) (name : String) : Except GoError URL :=
  match E.newClient with
  | some err => .error err
  | none =>
    match E.health name with
    | .error err =>
      .error (.errorf ("could not query Consul for service \x27" ++ name ++ "\x27: " ++
        err.Error))
    | .ok [] =>
      .error (.errorf ("no healthy instances of service \x27" ++ name ++
        "\x27 found in Consul"))
    | .ok (entry :: _) => E.parse (serviceAddress entry.Service)

/-- A deployment with two instances of the users service. -/
def demoEnv : Env :=
  Env.mk none
    (fun name =>
      if name = "users-service" then .ok [⟨⟨"users-host", 8081⟩⟩, ⟨⟨"users-spare", 8081⟩⟩]
      else .ok [])
    (fun text => .ok ⟨text⟩)

/-- A deployment whose registry lists a first instance with port -1. On the text
`http://users-host:-1` the parser answers as `url.Parse` does: the port after the host
is not made of digits. -/
def negativePortEnv : Env :=
  Env.mk none
    (fun name =>
      if name = "users-service" then .ok [⟨⟨"users-host", -1⟩⟩, ⟨⟨"users-spare", 8081⟩⟩]
      else .ok [])
    (fun text =>
      if text = "http://users-host:-1" then
        .error (.errorf
          "parse \x22http://users-host:-1\x22: invalid port \x22:-1\x22 after host")
      else .ok ⟨text⟩)

/-! ## Routing -/

/-- The library function `strings.TrimPrefix`. -/
def TrimPrefix (s pre : String) : String :=
  if pre.data.isPrefixOf s.data then String.mk (s.data.drop pre.data.length) else s

/-- Splitting a sequence of characters at every occurrence of a separator. -/
def splitChars (sep : Char) : List Char → List (List Char)
  | [] => [[]]
  | c :: cs =>
    if c = sep then [] :: splitChars sep cs
    else
      match splitChars sep cs with
      | [] => [[c]]
      | seg :: segs => (c :: seg) :: segs

/-- The library function `strings.Split` for a separator of one character. -/
def Split (s : String) (sep : Char) : List String :=
  (splitChars sep s.data).map String.mk

/-- The library function `strings.Join`. -/
def Join : List String → String → String
  | [], _ => ""
  | [a], _ => a
  | a :: b :: rest, sep => a ++ sep ++ Join (b :: rest) sep

/-- What `routeRequest` does with a request. -/
inductive Outcome where
  /-- The call `http.Error(w, msg, code)`. -/
  | error (msg : String) (code : Nat)
  /-- The request is handed to the reverse proxy of `serviceURL`, with `r.URL.Path`
  rewritten to `path`. -/
  | forward (serviceURL : URL) (path : String)
  deriving DecidableEq, Repr

/-- The outcome of `routeRequest` and the service names it looked up. -/
structure Routed where
  lookups : List String
  outcome : Outcome
  deriving DecidableEq, Repr

/-- The segments `strings.Split(strings.TrimPrefix(r.URL.Path, "/"), "/")` (line 33). -/
def pathSegments (path : String) : List String :=
  Split (TrimPrefix path "/") '/'

/-- The rewritten path `"/" + strings.Join(pathSegments[1:], "/")` (line 55). -/
def forwardPath (path : String) : String :=
  "/" ++ Join ((pathSegments path).drop 1) "/"

/-- The handler `routeRequest` (lines 28-60), as a function of the request path. -/
def routeRequest (E : Env) (path : String) : Routed :=
  if (pathSegments path).length < 3 ∨ (pathSegments path).getD 0 "" ≠ "api" then
    ⟨[], .error "Invalid request path" 400⟩
  else
    let serviceName := (pathSegments path).getD 1 "" ++ "-service"
    match discoverService E serviceName with
    | .error err => ⟨[serviceName], .error err.Error 503⟩
    | .ok serviceURL => ⟨[serviceName], .forward serviceURL (forwardPath path)⟩

end Practical2

/-! ## Lemmas on strings and on the connection map -/

namespace Practical3

/-- Two strings that differ at a position inside their first parts are different. -/
theorem append_ne_of_getElem (p q x y : String) (i : Nat) (hp : i < p.data.length)
    (hq : i < q.data.length) (h : p.data[i]? ≠ q.data[i]?) : p ++ x ≠ q ++ y := by
  intro heq
  have hd : (p ++ x).data = (q ++ y).data := by rw [heq]
  simp only [String.data_append] at hd
  have h1 : (p.data ++ x.data)[i]? = (q.data ++ y.data)[i]? := by rw [hd]
  rw [List.getElem?_append_left hp, List.getElem?_append_left hq] at h1
  exact h h1

/-- Reading a key just written gives the written connection. -/
theorem ConnMap.get_set_self (m : ConnMap) (key : String) (v : ClientConn) :
    ConnMap.get (ConnMap.set m key v) key = some v := by
  induction m with
  | nil => simp [ConnMap.set, ConnMap.get]
  | cons hd tl ih =>
    obtain ⟨k, w⟩ := hd
    by_cases hk : k = key
    · simp [ConnMap.set, ConnMap.get, hk]
    · simp [ConnMap.set, ConnMap.get, hk, ih]

/-- Writing a key does not change what another key reads. -/
theorem ConnMap.get_set_other (m : ConnMap) (key other : String) (v : ClientConn)
    (hne : other ≠ key) : ConnMap.get (ConnMap.set m key v) other = ConnMap.get m other := by
  induction m with
  | nil =>
    have hne2 : ¬ key = other := fun h => hne h.symm
    simp [ConnMap.set, ConnMap.get, hne2]
  | cons hd tl ih =>
    obtain ⟨k, w⟩ := hd
    have hne2 : ¬ key = other := fun h => hne h.symm
    by_cases hk : k = key
    · subst hk
      simp [ConnMap.set, ConnMap.get, hne2]
    · by_cases hko : k = other
      · subst hko
        simp [ConnMap.set, ConnMap.get, hk]
      · simp [ConnMap.set, ConnMap.get, hk, hko, ih]

/-- On a cached name the call returns the cached connection, touches nothing and calls
no collaborator. -/
theorem getServiceConnection_hit (E : Env) (sd : ServiceDiscovery) (name : String)
    (c : ClientConn) (h : sd.connections.get name = some c) :
    getServiceConnection E sd name = ⟨.ok c, sd, []⟩ := by
  simp [getServiceConnection, h]

/-- After a successful call the name is cached with the returned connection. -/
theorem getServiceConnection_ok_cached (E : Env) (sd : ServiceDiscovery) (name : String)
    (c : ClientConn) (h : (getServiceConnection E sd name).result = .ok c) :
    (getServiceConnection E sd name).sd.connections.get name = some c := by
  unfold getServiceConnection at h ⊢
  cases hget : sd.connections.get name with
  | some conn =>
    simp only [hget] at h ⊢
    exact congrArg some (Except.ok.inj h)
  | none =>
    simp only [hget] at h ⊢
    cases hreg : E.health name with
    | error err => simp [hreg] at h
    | ok services =>
      cases services with
      | nil => simp [hreg] at h
      | cons entry rest =>
        simp only [hreg] at h ⊢
        cases hdial : E.dial (dialAddress entry.Service) with
        | error err => simp [hdial] at h
        | ok conn =>
          simp only [hdial] at h ⊢
          rw [← Except.ok.inj h]
          exact ConnMap.get_set_self _ _ _

end Practical3

/-! ## The connection cache: stability, failures, instance selection -/

namespace Practical3

/-- Every collaborator call of a resolution is a registry query or a dial. -/
theorem getServiceConnection_trace_cases (E : Env) (sd : ServiceDiscovery) (name : String)
    (ev : Event) (h : ev ∈ (getServiceConnection E sd name).trace) :
    (∃ n, ev = .registry n) ∨ (∃ a, ev = .dial a) := by
  unfold getServiceConnection at h
  cases hget : sd.connections.get name with
  | some conn => simp [hget] at h
  | none =>
    simp only [hget] at h
    cases hreg : E.health name with
    | error err =>
      simp [hreg] at h
      exact Or.inl ⟨_, h⟩
    | ok services =>
      cases services with
      | nil =>
        simp [hreg] at h
        exact Or.inl ⟨_, h⟩
      | cons entry rest =>
        simp only [hreg] at h
        cases hdial : E.dial (dialAddress entry.Service) with
        | error err =>
          simp [hdial] at h
          rcases h with h | h
          · exact Or.inl ⟨_, h⟩
          · exact Or.inr ⟨_, h⟩
        | ok conn =>
          simp [hdial] at h
          rcases h with h | h
          · exact Or.inl ⟨_, h⟩
          · exact Or.inr ⟨_, h⟩

/-- C1 (cache stability): if resolving a name under one registry and dialer succeeds
with connection `c`, then resolving the same name on the resulting cache under any
other registry and dialer (an error, an empty list, another first instance) returns
`c` with no error, calls neither the registry nor the dialer, and leaves the cache
unchanged. -/
theorem cache_stability (E1 E2 : Env) (sd : ServiceDiscovery) (name : String)
    (c : ClientConn) (h : (getServiceConnection E1 sd name).result = .ok c) :
    getServiceConnection E2 (getServiceConnection E1 sd name).sd name =
      ⟨.ok c, (getServiceConnection E1 sd name).sd, []⟩ :=
  getServiceConnection_hit E2 _ name c (getServiceConnection_ok_cached E1 sd name c h)

/-- C1 at a fresh gateway: the users service is resolved in the healthy deployment,
then resolved again while the registry is down. -/
theorem cache_stability_witness :
    (getServiceConnection demoEnv freshSd "users-service").result = .ok ⟨1⟩ ∧
    getServiceConnection (demoEnv.withHealth (.error (.errorf "connection refused")))
        (getServiceConnection demoEnv freshSd "users-service").sd "users-service" =
      ⟨.ok ⟨1⟩, (getServiceConnection demoEnv freshSd "users-service").sd, []⟩ :=
  ⟨by rfl, cache_stability demoEnv _ freshSd "users-service" ⟨1⟩ (by rfl)⟩

/-- C2 (no-instance behaviour): for a name absent from the cache, an empty instance
list gives the error "no healthy instances of service <name> found", a registry error
`e` gives "failed to discover service <name>: <e>", and these two errors, and their
texts, differ for all names and all `e`. -/
theorem no_instance_behaviour (E : Env) (sd : ServiceDiscovery) (name : String)
    (hmiss : sd.connections.get name = none) :
    (E.health name = .ok [] →
      (getServiceConnection E sd name).result =
        .error (.errorf ("no healthy instances of service " ++ name ++ " found"))) ∧
    (∀ e : GoError, E.health name = .error e →
      (getServiceConnection E sd name).result =
        .error (.errorf ("failed to discover service " ++ name ++ ": " ++ e.Error))) ∧
    (∀ (other : String) (e : GoError),
      GoError.errorf ("failed to discover service " ++ name ++ ": " ++ e.Error) ≠
        GoError.errorf ("no healthy instances of service " ++ other ++ " found") ∧
      (GoError.errorf ("failed to discover service " ++ name ++ ": " ++ e.Error)).Error ≠
        (GoError.errorf ("no healthy instances of service " ++ other ++ " found")).Error) := by
  have htext : ∀ (other : String) (e : GoError),
      "failed to discover service " ++ name ++ ": " ++ e.Error ≠
        "no healthy instances of service " ++ other ++ " found" := by
    intro other e
    rw [String.append_assoc, String.append_assoc, String.append_assoc]
    exact append_ne_of_getElem _ _ _ _ 0 (by decide) (by decide) (by decide)
  refine ⟨?_, ?_, ?_⟩
  · intro hreg
    simp [getServiceConnection, hmiss, hreg]
  · intro e hreg
    simp [getServiceConnection, hmiss, hreg]
  · intro other e
    refine ⟨?_, htext other e⟩
    intro heq
    exact htext other e (GoError.errorf.inj heq)

/-- C2 at a fresh gateway: the registry answers with no instance, and the registry is
unreachable. -/
theorem no_instance_behaviour_witness :
    (getServiceConnection (demoEnv.withHealth (.ok [])) freshSd "users-service").result =
      .error (.errorf ("no healthy instances of service " ++ "users-service" ++ " found")) ∧
    (getServiceConnection (demoEnv.withHealth (.error (.errorf "connection refused")))
        freshSd "users-service").result =
      .error (.errorf ("failed to discover service " ++ "users-service" ++ ": " ++
        (GoError.errorf "connection refused").Error)) :=
  ⟨(no_instance_behaviour (demoEnv.withHealth (.ok [])) freshSd "users-service" (by rfl)).1
      (by rfl),
    (no_instance_behaviour (demoEnv.withHealth (.error (.errorf "connection refused")))
      freshSd "users-service" (by rfl)).2.1 _ (by rfl)⟩

end Practical3

namespace Practical3

/-- C9 as stated fails for `discoverService`: the registry lists a first instance
`users-host` with port -1, the text `http://users-host:-1` does not parse, and
`discoverService` returns the parse error and no URL. -/
theorem first_instance_selection_counterexample :
    Practical2.negativePortEnv.newClient = none ∧
    Practical2.negativePortEnv.health "users-service" =
      .ok [⟨⟨"users-host", -1⟩⟩, ⟨⟨"users-spare", 8081⟩⟩] ∧
    Practical2.serviceAddress ⟨"users-host", -1⟩ = "http://users-host:-1" ∧
    Practical2.discoverService Practical2.negativePortEnv "users-service" =
      .error (.errorf
        "parse \x22http://users-host:-1\x22: invalid port \x22:-1\x22 after host") ∧
    ¬ (∃ url, Practical2.discoverService Practical2.negativePortEnv "users-service" =
      .ok url) := by
  have hres : Practical2.discoverService Practical2.negativePortEnv "users-service" =
      .error (.errorf
        "parse \x22http://users-host:-1\x22: invalid port \x22:-1\x22 after host") := by
    rfl
  refine ⟨rfl, by rfl, by decide, hres, ?_⟩
  rw [hres]
  rintro ⟨url, hurl⟩
  cases hurl

/-- C9 amended (first-instance selection): for a name absent from the cache and a
non-empty instance list, `getServiceConnection` asks the registry once and dials exactly
`<Address>:<Port>` of the first element, its outcome is determined by the dial of that
address, and replacing the later elements changes nothing; `discoverService` of
practical2 returns what `url.Parse` returns on `http://<Address>:<Port>` of the first
element, the URL when that text parses and the parse error when it does not, whatever
the later elements are. -/
theorem first_instance_selection (E : Env) (sd : ServiceDiscovery) (name : String)
    (first : ServiceEntry) (rest other : List ServiceEntry)
    (G : Practical2.Env) (name2 : String) (first2 : ServiceEntry)
    (rest2 other2 : List ServiceEntry)
    (hmiss : sd.connections.get name = none)
    (hreg : E.health name = .ok (first :: rest))
    (hclient : G.newClient = none)
    (hreg2 : G.health name2 = .ok (first2 :: rest2)) :
    (getServiceConnection E sd name).trace =
      [.registry name,
        .dial (first.Service.Address ++ ":" ++ toString first.Service.Port)] ∧
    (∀ conn, E.dial (first.Service.Address ++ ":" ++ toString first.Service.Port) = .ok conn →
      (getServiceConnection E sd name).result = .ok conn) ∧
    getServiceConnection (E.withHealth (.ok (first :: other))) sd name =
      getServiceConnection E sd name ∧
    Practical2.discoverService G name2 =
      G.parse ("http://" ++ first2.Service.Address ++ ":" ++ toString first2.Service.Port) ∧
    Practical2.discoverService (Practical2.Env.mk G.newClient
        (fun _ => .ok (first2 :: other2)) G.parse) name2 =
      Practical2.discoverService G name2 ∧
    (∀ url, G.parse ("http://" ++ first2.Service.Address ++ ":" ++
        toString first2.Service.Port) = .ok url →
      Practical2.discoverService G name2 = .ok url) ∧
    (∀ e, G.parse ("http://" ++ first2.Service.Address ++ ":" ++
        toString first2.Service.Port) = .error e →
      Practical2.discoverService G name2 = .error e) := by
  have hparse : Practical2.discoverService G name2 =
      G.parse ("http://" ++ first2.Service.Address ++ ":" ++
        toString first2.Service.Port) := by
    simp [Practical2.discoverService, hclient, hreg2, Practical2.serviceAddress]
  refine ⟨?_, ?_, ?_, ?_, ?_, fun url h => by rw [hparse, h],
    fun e h => by rw [hparse, h]⟩
  · unfold getServiceConnection
    simp only [hmiss, hreg]
    cases hdial : E.dial (dialAddress first.Service) <;> simp [dialAddress]
  · intro conn hdial
    unfold getServiceConnection
    simp only [hmiss, hreg]
    have hdial2 : E.dial (dialAddress first.Service) = .ok conn := hdial
    simp [hdial2]
  · unfold getServiceConnection
    simp only [hmiss, hreg, Env.withHealth]
  · simp [Practical2.discoverService, hclient, hreg2, Practical2.serviceAddress]
  · simp [Practical2.discoverService, hclient, hreg2]

/-- C9 amended, in the two demonstration deployments, each with two instances of the
users service. -/
theorem first_instance_selection_witness :
    (getServiceConnection demoEnv freshSd "users-service").trace =
      [.registry "users-service", .dial ("users-host" ++ ":" ++ toString (50051 : Int))] ∧
    Practical2.discoverService Practical2.demoEnv "users-service" =
      Practical2.demoEnv.parse ("http://" ++ "users-host" ++ ":" ++ toString (8081 : Int)) :=
  have h := first_instance_selection demoEnv freshSd "users-service"
    ⟨⟨"users-host", 50051⟩⟩ [⟨⟨"users-spare", 50051⟩⟩] []
    Practical2.demoEnv "users-service" ⟨⟨"users-host", 8081⟩⟩ [⟨⟨"users-spare", 8081⟩⟩] []
    (by rfl) (by rfl) (by rfl) (by rfl)
  ⟨h.1, h.2.2.2.1⟩

/-- C10 (malformed body): on `createUserHandler` and `createProductHandler`, when the
client resolves and the body does not decode, the response is
`http.Error(w, "Invalid request body", 400)` and no remote call is issued. -/
theorem malformed_body_bad_request (E : Env) (sd : ServiceDiscovery) (r : Request) :
    (∀ (client : ClientConn) (e : GoError),
      (getUsersClient E sd).result = .ok client → E.decodeUser r.body = .error e →
      (createUserHandler E sd r).response = .error "Invalid request body" 400 ∧
      (createUserHandler E sd r).response.status = 400 ∧
      ∀ method conn, Event.rpc method conn ∉ (createUserHandler E sd r).trace) ∧
    (∀ (client : ClientConn) (e : GoError),
      (getProductsClient E sd).result = .ok client → E.decodeProduct r.body = .error e →
      (createProductHandler E sd r).response = .error "Invalid request body" 400 ∧
      (createProductHandler E sd r).response.status = 400 ∧
      ∀ method conn, Event.rpc method conn ∉ (createProductHandler E sd r).trace) := by
  constructor
  · intro client e hres hdec
    have htrace : ∀ method conn, Event.rpc method conn ∉ (getUsersClient E sd).trace := by
      intro method conn hmem
      rcases getServiceConnection_trace_cases E sd _ _ hmem with ⟨n, hn⟩ | ⟨a, ha⟩
      · cases hn
      · cases ha
    simp only [createUserHandler, hres, hdec, Response.status, true_and]
    intro method conn hmem
    simp only [List.mem_append, List.mem_singleton] at hmem
    rcases hmem with hmem | hmem
    · exact htrace method conn hmem
    · cases hmem
  · intro client e hres hdec
    have htrace : ∀ method conn, Event.rpc method conn ∉ (getProductsClient E sd).trace := by
      intro method conn hmem
      rcases getServiceConnection_trace_cases E sd _ _ hmem with ⟨n, hn⟩ | ⟨a, ha⟩
      · cases hn
      · cases ha
    simp only [createProductHandler, hres, hdec, Response.status, true_and]
    intro method conn hmem
    simp only [List.mem_append, List.mem_singleton] at hmem
    rcases hmem with hmem | hmem
    · exact htrace method conn hmem
    · cases hmem

/-- C10 in the healthy deployment, with an empty body on both create endpoints. -/
theorem malformed_body_bad_request_witness :
    (createUserHandler demoEnv freshSd ⟨idVars "", ""⟩).response =
      .error "Invalid request body" 400 ∧
    (createProductHandler demoEnv freshSd ⟨idVars "", ""⟩).response =
      .error "Invalid request body" 400 :=
  ⟨((malformed_body_bad_request demoEnv freshSd ⟨idVars "", ""⟩).1 ⟨1⟩ (.errorf "EOF")
      (by rfl) (by rfl)).1,
    ((malformed_body_bad_request demoEnv freshSd ⟨idVars "", ""⟩).2 ⟨2⟩ (.errorf "EOF")
      (by rfl) (by rfl)).1⟩

end Practical3

/-! ## The aggregation handler: the response does not depend on the schedule -/

namespace Practical3

/-- The returned pair depends on the cache only through the entry of the name. -/
theorem getServiceConnection_result_congr (E : Env) (sd1 sd2 : ServiceDiscovery)
    (name : String) (h : sd1.connections.get name = sd2.connections.get name) :
    (getServiceConnection E sd1 name).result = (getServiceConnection E sd2 name).result := by
  unfold getServiceConnection
  rw [h]
  cases sd2.connections.get name with
  | some conn => rfl
  | none =>
    cases E.health name with
    | error err => rfl
    | ok services =>
      cases services with
      | nil => rfl
      | cons entry rest =>
        simp only
        cases E.dial (dialAddress entry.Service) <;> rfl

/-- A resolution leaves the entry of every other name as it was. -/
theorem getServiceConnection_get_other (E : Env) (sd : ServiceDiscovery)
    (name other : String) (hne : other ≠ name) :
    (getServiceConnection E sd name).sd.connections.get other =
      sd.connections.get other := by
  unfold getServiceConnection
  cases sd.connections.get name with
  | some conn => rfl
  | none =>
    cases E.health name with
    | error err => rfl
    | ok services =>
      cases services with
      | nil => rfl
      | cons entry rest =>
        simp only
        cases E.dial (dialAddress entry.Service) with
        | error err => rfl
        | ok conn => exact ConnMap.get_set_other _ _ _ _ hne

/-- A step of the second goroutine does not change what resolving the users service
returns. -/
theorem getUsersClient_stepProduct (E : Env) (productId : String) (s : FanOut) :
    (getUsersClient E (stepProduct E productId s).sd).result =
      (getUsersClient E s.sd).result := by
  apply getServiceConnection_result_congr
  unfold stepProduct
  cases s.productPc with
  | start =>
    simp only
    cases hres : (getProductsClient E s.sd).result <;>
      exact getServiceConnection_get_other E s.sd "products-service" "users-service"
        (by decide)
  | resolved client =>
    simp only
    cases E.getProduct client productId <;> rfl
  | done => rfl

/-- A step of the first goroutine does not change what resolving the products service
returns. -/
theorem getProductsClient_stepUser (E : Env) (userId : String) (s : FanOut) :
    (getProductsClient E (stepUser E userId s).sd).result =
      (getProductsClient E s.sd).result := by
  apply getServiceConnection_result_congr
  unfold stepUser
  cases s.userPc with
  | start =>
    simp only
    cases hres : (getUsersClient E s.sd).result <;>
      exact getServiceConnection_get_other E s.sd "users-service" "products-service"
        (by decide)
  | resolved client =>
    simp only
    cases E.getUser client userId <;> rfl
  | done => rfl

end Practical3

namespace Practical3

/-- A step of the first goroutine keeps its own eventual outcome. -/
theorem userView_stepUser (E : Env) (userId : String) (s : FanOut) :
    userView E userId (stepUser E userId s) = userView E userId s := by
  unfold userView stepUser
  cases hpc : s.userPc with
  | start =>
    simp only
    cases hres : (getUsersClient E s.sd).result with
    | error err => rfl
    | ok client => simp only
  | resolved client =>
    simp only
    cases E.getUser client userId <;> rfl
  | done => simp only [hpc]

/-- A step of the second goroutine keeps the eventual outcome of the first. -/
theorem userView_stepProduct (E : Env) (userId productId : String) (s : FanOut) :
    userView E userId (stepProduct E productId s) = userView E userId s := by
  have hres := getUsersClient_stepProduct E productId s
  have hvars : (stepProduct E productId s).userPc = s.userPc ∧
      (stepProduct E productId s).user = s.user ∧
      (stepProduct E productId s).userErr = s.userErr := by
    unfold stepProduct
    cases s.productPc with
    | start =>
      simp only
      cases (getProductsClient E s.sd).result <;> exact ⟨rfl, rfl, rfl⟩
    | resolved client =>
      simp only
      cases E.getProduct client productId <;> exact ⟨rfl, rfl, rfl⟩
    | done => exact ⟨rfl, rfl, rfl⟩
  unfold userView
  rw [hvars.1, hvars.2.1, hvars.2.2, hres]

/-- A step of the second goroutine keeps its own eventual outcome. -/
theorem productView_stepProduct (E : Env) (productId : String) (s : FanOut) :
    productView E productId (stepProduct E productId s) = productView E productId s := by
  unfold productView stepProduct
  cases hpc : s.productPc with
  | start =>
    simp only
    cases hres : (getProductsClient E s.sd).result with
    | error err => rfl
    | ok client => simp only
  | resolved client =>
    simp only
    cases E.getProduct client productId <;> rfl
  | done => simp only [hpc]

/-- A step of the first goroutine keeps the eventual outcome of the second. -/
theorem productView_stepUser (E : Env) (userId productId : String) (s : FanOut) :
    productView E productId (stepUser E userId s) = productView E productId s := by
  have hres := getProductsClient_stepUser E userId s
  have hvars : (stepUser E userId s).productPc = s.productPc ∧
      (stepUser E userId s).product = s.product ∧
      (stepUser E userId s).productErr = s.productErr := by
    unfold stepUser
    cases s.userPc with
    | start =>
      simp only
      cases (getUsersClient E s.sd).result <;> exact ⟨rfl, rfl, rfl⟩
    | resolved client =>
      simp only
      cases E.getUser client userId <;> exact ⟨rfl, rfl, rfl⟩
    | done => exact ⟨rfl, rfl, rfl⟩
  unfold productView
  rw [hvars.1, hvars.2.1, hvars.2.2, hres]

/-- Two steps finish the first goroutine. -/
theorem stepUser_twice_done (E : Env) (userId : String) (s : FanOut) :
    (stepUser E userId (stepUser E userId s)).userPc = .done := by
  cases hpc : s.userPc with
  | start =>
    cases hres : (getUsersClient E s.sd).result with
    | error err => simp [stepUser, hpc, hres]
    | ok client =>
      cases hcall : E.getUser client userId <;> simp [stepUser, hpc, hres, hcall]
  | resolved client =>
    cases hcall : E.getUser client userId <;> simp [stepUser, hpc, hcall]
  | done => simp [stepUser, hpc]

/-- Two steps finish the second goroutine. -/
theorem stepProduct_twice_done (E : Env) (productId : String) (s : FanOut) :
    (stepProduct E productId (stepProduct E productId s)).productPc = .done := by
  cases hpc : s.productPc with
  | start =>
    cases hres : (getProductsClient E s.sd).result with
    | error err => simp [stepProduct, hpc, hres]
    | ok client =>
      cases hcall : E.getProduct client productId <;> simp [stepProduct, hpc, hres, hcall]
  | resolved client =>
    cases hcall : E.getProduct client productId <;> simp [stepProduct, hpc, hcall]
  | done => simp [stepProduct, hpc]

/-- A step of the second goroutine does not move the first. -/
theorem stepProduct_userPc (E : Env) (productId : String) (s : FanOut) :
    (stepProduct E productId s).userPc = s.userPc := by
  unfold stepProduct
  cases s.productPc with
  | start =>
    simp only
    cases (getProductsClient E s.sd).result <;> rfl
  | resolved client =>
    simp only
    cases E.getProduct client productId <;> rfl
  | done => rfl

/-- The schedule keeps the eventual outcome of the first goroutine. -/
theorem userView_runSchedule (E : Env) (userId productId : String) (schedule : List Bool)
    (s : FanOut) :
    userView E userId (runSchedule E userId productId schedule s) = userView E userId s := by
  induction schedule generalizing s with
  | nil => rfl
  | cons b rest ih =>
    cases b with
    | true =>
      show userView E userId (runSchedule E userId productId rest (stepUser E userId s)) = _
      rw [ih, userView_stepUser]
    | false =>
      show userView E userId
        (runSchedule E userId productId rest (stepProduct E productId s)) = _
      rw [ih, userView_stepProduct]

/-- The schedule keeps the eventual outcome of the second goroutine. -/
theorem productView_runSchedule (E : Env) (userId productId : String)
    (schedule : List Bool) (s : FanOut) :
    productView E productId (runSchedule E userId productId schedule s) =
      productView E productId s := by
  induction schedule generalizing s with
  | nil => rfl
  | cons b rest ih =>
    cases b with
    | true =>
      show productView E productId
        (runSchedule E userId productId rest (stepUser E userId s)) = _
      rw [ih, productView_stepUser]
    | false =>
      show productView E productId
        (runSchedule E userId productId rest (stepProduct E productId s)) = _
      rw [ih, productView_stepProduct]

/-- After the join the variables of the first goroutine hold its eventual outcome. -/
theorem waitAll_user (E : Env) (userId productId : String) (s : FanOut) :
    ((waitAll E userId productId s).user, (waitAll E userId productId s).userErr) =
      userView E userId s := by
  have hdone : (waitAll E userId productId s).userPc = .done := by
    unfold waitAll
    rw [stepProduct_userPc, stepProduct_userPc, stepUser_twice_done]
  have hview : userView E userId (waitAll E userId productId s) = userView E userId s := by
    unfold waitAll
    rw [userView_stepProduct, userView_stepProduct, userView_stepUser, userView_stepUser]
  rw [← hview]
  unfold userView
  rw [hdone]

/-- After the join the variables of the second goroutine hold its eventual outcome. -/
theorem waitAll_product (E : Env) (userId productId : String) (s : FanOut) :
    ((waitAll E userId productId s).product, (waitAll E userId productId s).productErr) =
      productView E productId s := by
  have hdone : (waitAll E userId productId s).productPc = .done := by
    unfold waitAll
    rw [stepProduct_twice_done]
  have hview : productView E productId (waitAll E userId productId s) =
      productView E productId s := by
    unfold waitAll
    rw [productView_stepProduct, productView_stepProduct, productView_stepUser,
      productView_stepUser]
  rw [← hview]
  unfold productView
  rw [hdone]

/-- The response of `getPurchaseDataHandler` is the same for every schedule of its two
goroutines: it is read off what each goroutine computes when run alone on the initial
cache. -/
theorem getPurchaseDataHandler_response (E : Env) (sd : ServiceDiscovery)
    (schedule : List Bool) (r : Request) :
    (getPurchaseDataHandler E sd schedule r).response =
      joinOutcomes (userBranch E sd (r.vars "userId"))
        (productBranch E sd (r.vars "productId")) := by
  have hu := waitAll_user E (r.vars "userId") (r.vars "productId")
    (runSchedule E (r.vars "userId") (r.vars "productId") schedule
      ⟨sd, none, none, none, none, .start, .start, []⟩)
  have hp := waitAll_product E (r.vars "userId") (r.vars "productId")
    (runSchedule E (r.vars "userId") (r.vars "productId") schedule
      ⟨sd, none, none, none, none, .start, .start, []⟩)
  rw [userView_runSchedule] at hu
  rw [productView_runSchedule] at hp
  have hu1 := congrArg Prod.fst hu
  have hu2 := congrArg Prod.snd hu
  have hp1 := congrArg Prod.fst hp
  have hp2 := congrArg Prod.snd hp
  simp only at hu1 hu2 hp1 hp2
  show respond _ = _
  unfold respond
  rw [hu2, hp2, hu1, hp1]
  unfold userView productView userBranch productBranch joinOutcomes
  simp only
  cases (getUsersClient E sd).result with
  | error err => rfl
  | ok client =>
    simp only
    cases E.getUser client (r.vars "userId") with
    | error err => rfl
    | ok out =>
      simp only
      cases (getProductsClient E sd).result with
      | error err => rfl
      | ok pclient =>
        simp only
        cases E.getProduct pclient (r.vars "productId") <;> rfl

end Practical3

/-! ## The aggregation handler: which outcome is reported -/

namespace Practical3

/-- C3 (error ordering): when both goroutines fail, each at the resolution of its
client or at its remote call, the handler answers with
`http.Error(w, "Failed to get user: <userErr>", 404)` and not with the product error,
for every schedule of the two goroutines. -/
theorem error_ordering (E : Env) (sd : ServiceDiscovery) (schedule : List Bool)
    (r : Request) (userErr productErr : GoError)
    (hu : userBranch E sd (r.vars "userId") = .error userErr)
    (hp : productBranch E sd (r.vars "productId") = .error productErr) :
    (getPurchaseDataHandler E sd schedule r).response =
      .error ("Failed to get user: " ++ userErr.Error) 404 ∧
    (getPurchaseDataHandler E sd schedule r).response ≠
      .error ("Failed to get product: " ++ productErr.Error) 404 ∧
    ∀ other : List Bool, (getPurchaseDataHandler E sd other r).response =
      (getPurchaseDataHandler E sd schedule r).response := by
  have hresp : ∀ sch : List Bool, (getPurchaseDataHandler E sd sch r).response =
      .error ("Failed to get user: " ++ userErr.Error) 404 := by
    intro sch
    rw [getPurchaseDataHandler_response, hu, hp]
    rfl
  refine ⟨hresp schedule, ?_, ?_⟩
  · rw [hresp schedule]
    intro heq
    have htext := (Response.error.inj heq).1
    exact append_ne_of_getElem "Failed to get user: " "Failed to get product: " _ _ 14
      (by decide) (by decide) (by decide) htext
  · intro other
    rw [hresp other, hresp schedule]

/-- C3 in the healthy deployment: the users backend is unreachable for the id `boom`,
product 99 does not exist, and the second goroutine finishes before the first starts. -/
theorem error_ordering_witness :
    (getPurchaseDataHandler demoEnv freshSd [false, false, true, true]
        ⟨purchaseVars "boom" "99", ""⟩).response =
      .error ("Failed to get user: " ++ unavailableError.Error) 404 :=
  (error_ordering demoEnv freshSd [false, false, true, true] ⟨purchaseVars "boom" "99", ""⟩
    unavailableError recordNotFound (by rfl) (by rfl)).1

/-- C6 (fan-out independence): when the first goroutine fails with `e` and the second
succeeds, the handler answers with `http.Error` whose text is exactly
"Failed to get user: " followed by the text of `e`; the response is a failure, and it is
the same in every run in which the first goroutine fails with `e`, whatever the second
one returned. -/
theorem fanout_independence (E : Env) (sd : ServiceDiscovery) (schedule : List Bool)
    (r : Request) (e : GoError) (product : Option Product)
    (hu : userBranch E sd (r.vars "userId") = .error e)
    (hp : productBranch E sd (r.vars "productId") = .ok product) :
    (getPurchaseDataHandler E sd schedule r).response =
      .error ("Failed to get user: " ++ e.Error) 404 ∧
    (getPurchaseDataHandler E sd schedule r).response.status ≠ 200 ∧
    ∀ (E2 : Env) (sd2 : ServiceDiscovery) (schedule2 : List Bool) (r2 : Request),
      userBranch E2 sd2 (r2.vars "userId") = .error e →
      (getPurchaseDataHandler E2 sd2 schedule2 r2).response =
        (getPurchaseDataHandler E sd schedule r).response := by
  have hresp : (getPurchaseDataHandler E sd schedule r).response =
      .error ("Failed to get user: " ++ e.Error) 404 := by
    rw [getPurchaseDataHandler_response, hu, hp]
    rfl
  refine ⟨hresp, ?_, ?_⟩
  · rw [hresp]
    simp [Response.status]
  · intro E2 sd2 schedule2 r2 hu2
    rw [hresp, getPurchaseDataHandler_response, hu2]
    rfl

/-- C6 in the healthy deployment: the users backend is unreachable for the id `boom`,
product 7 exists. -/
theorem fanout_independence_witness :
    (getPurchaseDataHandler demoEnv freshSd [true, false, false, true]
        ⟨purchaseVars "boom" "7", ""⟩).response =
      .error ("Failed to get user: " ++ unavailableError.Error) 404 :=
  (fanout_independence demoEnv freshSd [true, false, false, true]
    ⟨purchaseVars "boom" "7", ""⟩ unavailableError (some laptop) (by rfl) (by rfl)).1

/-- C7 (product-only failure): when the first goroutine succeeds and the second fails
with `e`, the status is 404 and the handler answers with
`http.Error(w, "Failed to get product: <e>", 404)`. -/
theorem product_only_failure (E : Env) (sd : ServiceDiscovery) (schedule : List Bool)
    (r : Request) (user : Option User) (e : GoError)
    (hu : userBranch E sd (r.vars "userId") = .ok user)
    (hp : productBranch E sd (r.vars "productId") = .error e) :
    (getPurchaseDataHandler E sd schedule r).response =
      .error ("Failed to get product: " ++ e.Error) 404 ∧
    (getPurchaseDataHandler E sd schedule r).response.status = 404 := by
  have hresp : (getPurchaseDataHandler E sd schedule r).response =
      .error ("Failed to get product: " ++ e.Error) 404 := by
    rw [getPurchaseDataHandler_response, hu, hp]
    rfl
  exact ⟨hresp, by rw [hresp]; rfl⟩

/-- C7 in the healthy deployment: user 42 exists, the products backend has no record
with id 99. -/
theorem product_only_failure_witness :
    (getPurchaseDataHandler demoEnv freshSd [true, false]
        ⟨purchaseVars "42" "99", ""⟩).response =
      .error ("Failed to get product: " ++ recordNotFound.Error) 404 ∧
    (getPurchaseDataHandler demoEnv freshSd [true, false]
        ⟨purchaseVars "42" "99", ""⟩).response.status = 404 :=
  product_only_failure demoEnv freshSd [true, false] ⟨purchaseVars "42" "99", ""⟩
    (some alice) recordNotFound (by rfl) (by rfl)

/-- A response written by `writeJSON` has status 200, encoded or not. -/
theorem writeJSON_status (payload : Payload) : (writeJSON payload).status = 200 := by
  unfold writeJSON
  cases payload.encodable <;> rfl

/-- The response `writeJSON` carries a payload exactly when the encoder accepts it, and
then it carries the payload handed to it. -/
theorem writeJSON_eq_json (payload other : Payload) :
    writeJSON payload = .json other ↔ payload.encodable = true ∧ other = payload := by
  unfold writeJSON
  cases h : payload.encodable
  · simp
  · simp only [Response.json.injEq, true_and]
    exact ⟨fun heq => heq.symm, fun heq => heq.symm⟩

/-- C8 as stated fails: in the healthy deployment user 42 and product 8 exist, so both
goroutines succeed, but the price of product 8 is a NaN, the encoder fails, its error is
dropped, and the response is 200 with an empty body: it carries no `UserPurchaseData`. -/
theorem aggregation_success_counterexample :
    userBranch demoEnv freshSd "42" = .ok (some alice) ∧
    productBranch demoEnv freshSd "8" = .ok (some ghost) ∧
    float64IsFinite ghost.Price = false ∧
    (getPurchaseDataHandler demoEnv freshSd [true, true, false, false]
        ⟨purchaseVars "42" "8", ""⟩).response = .noBody ∧
    (getPurchaseDataHandler demoEnv freshSd [true, true, false, false]
        ⟨purchaseVars "42" "8", ""⟩).response.status = 200 ∧
    ¬ (∃ d, (getPurchaseDataHandler demoEnv freshSd [true, true, false, false]
        ⟨purchaseVars "42" "8", ""⟩).response = .json (.purchase d)) := by
  have hresp : (getPurchaseDataHandler demoEnv freshSd [true, true, false, false]
      ⟨purchaseVars "42" "8", ""⟩).response = .noBody := by rfl
  refine ⟨by rfl, by rfl, by decide, hresp, ?_, ?_⟩
  · rw [hresp]
    rfl
  · rw [hresp]
    rintro ⟨d, hd⟩
    cases hd

/-- C8 amended (aggregation success): the response has status 200 exactly when both
goroutines succeeded. It carries a `UserPurchaseData` value exactly when both succeeded
and the price of the returned product is a finite number (or the product is `nil`);
its `user` field is then the user returned by the first goroutine and its `product`
field the product returned by the second. When both succeeded and the price is an
infinity or a NaN, the response is 200 with an empty body. -/
theorem aggregation_success (E : Env) (sd : ServiceDiscovery) (schedule : List Bool)
    (r : Request) :
    ((getPurchaseDataHandler E sd schedule r).response.status = 200 ↔
      ∃ user product, userBranch E sd (r.vars "userId") = .ok user ∧
        productBranch E sd (r.vars "productId") = .ok product) ∧
    ((∃ d, (getPurchaseDataHandler E sd schedule r).response = .json (.purchase d)) ↔
      ∃ user product, userBranch E sd (r.vars "userId") = .ok user ∧
        productBranch E sd (r.vars "productId") = .ok product ∧
        productEncodable product = true) ∧
    (∀ user product, userBranch E sd (r.vars "userId") = .ok user →
      productBranch E sd (r.vars "productId") = .ok product →
      productEncodable product = true →
      (getPurchaseDataHandler E sd schedule r).response =
        .json (.purchase ⟨user, product⟩)) ∧
    (∀ user product, userBranch E sd (r.vars "userId") = .ok user →
      productBranch E sd (r.vars "productId") = .ok product →
      productEncodable product = false →
      (getPurchaseDataHandler E sd schedule r).response = .noBody) := by
  rw [getPurchaseDataHandler_response]
  cases hu : userBranch E sd (r.vars "userId") with
  | error eu => simp [joinOutcomes, Response.status]
  | ok user =>
    cases hp : productBranch E sd (r.vars "productId") with
    | error ep => simp [joinOutcomes, Response.status]
    | ok product =>
      have hjoin : joinOutcomes (.ok user) (.ok product) =
          writeJSON (.purchase ⟨user, product⟩) := rfl
      rw [hjoin]
      refine ⟨?_, ?_, ?_, ?_⟩
      · exact ⟨fun _ => ⟨user, product, rfl, rfl⟩, fun _ => writeJSON_status _⟩
      · constructor
        · rintro ⟨d, hd⟩
          have henc := ((writeJSON_eq_json _ _).mp hd).1
          exact ⟨user, product, rfl, rfl, henc⟩
        · rintro ⟨user2, product2, hu2, hp2, henc⟩
          have hp3 : product2 = product := (Except.ok.inj hp2).symm
          rw [hp3] at henc
          exact ⟨⟨user, product⟩, (writeJSON_eq_json _ _).mpr ⟨henc, rfl⟩⟩
      · intro user2 product2 hu2 hp2 henc
        have hu3 : user2 = user := (Except.ok.inj hu2).symm
        have hp3 : product2 = product := (Except.ok.inj hp2).symm
        subst hu3 hp3
        exact (writeJSON_eq_json _ _).mpr ⟨henc, rfl⟩
      · intro user2 product2 hu2 hp2 henc
        have hp3 : product2 = product := (Except.ok.inj hp2).symm
        rw [hp3] at henc
        have henc2 : (Payload.purchase ⟨user, product⟩).encodable = false := henc
        unfold writeJSON
        rw [henc2]

/-- C8 amended, in the healthy deployment: user 42 and product 7, whose price is 1000,
exist. -/
theorem aggregation_success_witness :
    (getPurchaseDataHandler demoEnv freshSd [false, true, true]
        ⟨purchaseVars "42" "7", ""⟩).response =
      .json (.purchase ⟨some alice, some laptop⟩) :=
  (aggregation_success demoEnv freshSd [false, true, true] ⟨purchaseVars "42" "7", ""⟩).2.2.1
    (some alice) (some laptop) (by rfl) (by rfl) (by decide)

end Practical3

/-! ## Status codes at the boundary -/

namespace Practical3

/-- With the users service uncached and no healthy instance of it, the two single-entity
users endpoints answer 503 after one registry query and no dial, while the aggregation
handler answers 404 for every schedule. -/
theorem zero_instances_users_endpoints (E : Env) (sd : ServiceDiscovery)
    (schedule : List Bool) (r : Request)
    (hmiss : sd.connections.get "users-service" = none)
    (hreg : E.health "users-service" = .ok []) :
    createUserHandler E sd r =
      ⟨.error ("Service unavailable: " ++
          "no healthy instances of service users-service found") 503,
        sd, [.registry "users-service"]⟩ ∧
    getUserHandler E sd r =
      ⟨.error ("Service unavailable: " ++
          "no healthy instances of service users-service found") 503,
        sd, [.registry "users-service"]⟩ ∧
    (getPurchaseDataHandler E sd schedule r).response =
      .error ("Failed to get user: " ++
        "no healthy instances of service users-service found") 404 := by
  have hres : getUsersClient E sd =
      ⟨.error (.errorf "no healthy instances of service users-service found"), sd,
        [.registry "users-service"]⟩ := by
    simp only [getUsersClient, getServiceConnection, hmiss, hreg]
    rfl
  refine ⟨?_, ?_, ?_⟩
  · simp only [createUserHandler, hres, GoError.Error]
  · simp only [getUserHandler, hres, GoError.Error]
  · rw [getPurchaseDataHandler_response]
    simp only [userBranch, hres, joinOutcomes, GoError.Error]

/-- C4 at the failing input: a fresh gateway, a registry with no healthy instance, the
request `GET /api/purchases/user/42/product/7`. Whatever the schedule, the aggregation
handler answers 404 "Failed to get user: ...", not 503; on the same gateway
`getUserHandler` and `createUserHandler` answer 503. -/
theorem purchase_zero_instances_status (schedule : List Bool) :
    (getPurchaseDataHandler (demoEnv.withHealth (.ok [])) freshSd schedule
        ⟨purchaseVars "42" "7", ""⟩).response =
      .error "Failed to get user: no healthy instances of service users-service found" 404 ∧
    (getPurchaseDataHandler (demoEnv.withHealth (.ok [])) freshSd schedule
        ⟨purchaseVars "42" "7", ""⟩).response.status ≠ 503 ∧
    (getUserHandler (demoEnv.withHealth (.ok [])) freshSd ⟨idVars "42", ""⟩).response.status =
      503 ∧
    (createUserHandler (demoEnv.withHealth (.ok [])) freshSd
        ⟨idVars "", "alice"⟩).response.status = 503 := by
  have h := (zero_instances_users_endpoints (demoEnv.withHealth (.ok [])) freshSd schedule
    ⟨purchaseVars "42" "7", ""⟩ (by rfl) (by rfl)).2.2
  have htext : "Failed to get user: " ++
      "no healthy instances of service users-service found" =
      "Failed to get user: no healthy instances of service users-service found" := by
    decide
  rw [htext] at h
  refine ⟨h, ?_, by rfl, by rfl⟩
  rw [h]
  simp [Response.status]

/-- C5 as stated fails: in the healthy deployment the id `boom` makes the remote call
fail with gRPC code `Unavailable`, which is not a not-found error, and both
single-entity get endpoints still answer 404, not 500. -/
theorem remote_error_status_counterexample :
    (getUsersClient demoEnv freshSd).result = .ok ⟨1⟩ ∧
    demoEnv.getUser ⟨1⟩ "boom" = .error unavailableError ∧
    unavailableError.isNotFound = false ∧
    (getUserHandler demoEnv freshSd ⟨idVars "boom", ""⟩).response.status = 404 ∧
    (getUserHandler demoEnv freshSd ⟨idVars "boom", ""⟩).response.status ≠ 500 ∧
    (getProductHandler demoEnv freshSd ⟨idVars "boom", ""⟩).response.status = 404 ∧
    ¬ (∀ (E : Env) (sd : ServiceDiscovery) (r : Request) (client : ClientConn)
        (e : GoError), (getUsersClient E sd).result = .ok client →
        E.getUser client (r.vars "id") = .error e →
        (((getUserHandler E sd r).response.status = 404 ↔ e.isNotFound = true) ∧
          (e.isNotFound = false → (getUserHandler E sd r).response.status = 500))) := by
  refine ⟨by rfl, by rfl, by decide, by rfl, ?_, by rfl, ?_⟩
  · have h : (getUserHandler demoEnv freshSd ⟨idVars "boom", ""⟩).response.status = 404 := by
      rfl
    rw [h]
    decide
  · intro hall
    have h := (hall demoEnv freshSd ⟨idVars "boom", ""⟩ ⟨1⟩ unavailableError (by rfl)
      (by rfl)).2 (by decide)
    have h404 : (getUserHandler demoEnv freshSd ⟨idVars "boom", ""⟩).response.status =
        404 := by rfl
    rw [h404] at h
    exact absurd h (by decide)

/-- C5 amended: on `getUserHandler` and `getProductHandler`, after a successful client
resolution, every error `e` of the remote call, not-found or not, gives
`http.Error(w, e.Error(), 404)`; the status is 404 and never 500. -/
theorem remote_error_status (E : Env) (sd : ServiceDiscovery) (r : Request) :
    (∀ (client : ClientConn) (e : GoError),
      (getUsersClient E sd).result = .ok client →
      E.getUser client (r.vars "id") = .error e →
      (getUserHandler E sd r).response = .error e.Error 404 ∧
      (getUserHandler E sd r).response.status = 404) ∧
    (∀ (client : ClientConn) (e : GoError),
      (getProductsClient E sd).result = .ok client →
      E.getProduct client (r.vars "id") = .error e →
      (getProductHandler E sd r).response = .error e.Error 404 ∧
      (getProductHandler E sd r).response.status = 404) := by
  constructor
  · intro client e hres hcall
    simp [getUserHandler, hres, hcall, Response.status]
  · intro client e hres hcall
    simp [getProductHandler, hres, hcall, Response.status]

/-- C5 amended, in the healthy deployment: a missing record and an unreachable backend
both give 404. -/
theorem remote_error_status_witness :
    (getUserHandler demoEnv freshSd ⟨idVars "99", ""⟩).response =
      .error recordNotFound.Error 404 ∧
    (getProductHandler demoEnv freshSd ⟨idVars "boom", ""⟩).response =
      .error unavailableError.Error 404 :=
  ⟨((remote_error_status demoEnv freshSd ⟨idVars "99", ""⟩).1 ⟨1⟩ recordNotFound
      (by rfl) (by rfl)).1,
    ((remote_error_status demoEnv freshSd ⟨idVars "boom", ""⟩).2 ⟨2⟩ unavailableError
      (by rfl) (by rfl)).1⟩

end Practical3

/-! ## The connection cache: serialised callers, frame -/

namespace Practical3

/-- On a cached name every call of a sequence returns the cached connection, leaves the
cache as it is and calls no collaborator. -/
theorem serialCalls_hit (name : String) (c : ClientConn) (envs : List Env)
    (sd : ServiceDiscovery) (h : sd.connections.get name = some c) :
    (∀ r ∈ serialCalls name envs sd, r.result = .ok c) ∧
      allEvents (serialCalls name envs sd) = [] := by
  induction envs with
  | nil => simp [serialCalls, allEvents]
  | cons E later ih =>
    have hhit := getServiceConnection_hit E sd name c h
    simp only [serialCalls, hhit, allEvents, List.nil_append]
    refine ⟨?_, ih.2⟩
    intro r hr
    rcases List.mem_cons.mp hr with hr | hr
    · rw [hr]
    · exact ih.1 r hr

/-- Writing a key that the map does not hold appends one pair. -/
theorem ConnMap.set_of_get_none (m : ConnMap) (key : String) (v : ClientConn)
    (h : ConnMap.get m key = none) : ConnMap.set m key v = m ++ [(key, v)] := by
  induction m with
  | nil => rfl
  | cons hd tl ih =>
    obtain ⟨k, w⟩ := hd
    by_cases hk : k = key
    · simp [ConnMap.get, hk] at h
    · simp only [ConnMap.get, hk, if_false] at h
      simp [ConnMap.set, hk, ih h]

/-- C11 (cache exclusivity, serialised): for a name not yet cached, a registry answer
with a first instance and a dial of it that succeeds with `c`, in every sequence of
calls for that name (one per caller, in the order in which they take the lock) every
caller gets an answer, every answer is `c`, and the dialer is called exactly once. -/
theorem cache_exclusivity (E : Env) (later : List Env) (sd : ServiceDiscovery)
    (name : String) (first : ServiceEntry) (rest : List ServiceEntry) (c : ClientConn)
    (hmiss : sd.connections.get name = none)
    (hreg : E.health name = .ok (first :: rest))
    (hdial : E.dial (dialAddress first.Service) = .ok c) :
    (serialCalls name (E :: later) sd).length = later.length + 1 ∧
    (∀ r ∈ serialCalls name (E :: later) sd, r.result = .ok c) ∧
    dialCount (allEvents (serialCalls name (E :: later) sd)) = 1 ∧
    (allEvents (serialCalls name (E :: later) sd)).filter Event.isDial =
      [.dial (dialAddress first.Service)] := by
  have hfirst : getServiceConnection E sd name =
      ⟨.ok c, ⟨sd.connections.set name c⟩,
        [.registry name, .dial (dialAddress first.Service)]⟩ := by
    simp [getServiceConnection, hmiss, hreg, hdial]
  have hcached : (ServiceDiscovery.mk (sd.connections.set name c)).connections.get name =
      some c := ConnMap.get_set_self _ _ _
  have hlater := serialCalls_hit name c later ⟨sd.connections.set name c⟩ hcached
  have hlen : ∀ (envs : List Env) (s : ServiceDiscovery),
      (serialCalls name envs s).length = envs.length := by
    intro envs
    induction envs with
    | nil => intro s; rfl
    | cons E2 more ih => intro s; simp [serialCalls, ih]
  refine ⟨hlen _ _, ?_, ?_, ?_⟩
  · intro r hr
    simp only [serialCalls, hfirst] at hr
    rcases List.mem_cons.mp hr with hr | hr
    · rw [hr]
    · exact hlater.1 r hr
  · simp only [serialCalls, hfirst, allEvents, hlater.2, dialCount]
    rfl
  · simp only [serialCalls, hfirst, allEvents, hlater.2]
    rfl

/-- C11 on a fresh gateway with three callers: the second finds the registry down and
the third finds it empty. -/
theorem cache_exclusivity_witness :
    (∀ r ∈ serialCalls "users-service"
        [demoEnv, demoEnv.withHealth (.error (.errorf "connection refused")),
          demoEnv.withHealth (.ok [])] freshSd, r.result = .ok ⟨1⟩) ∧
    dialCount (allEvents (serialCalls "users-service"
        [demoEnv, demoEnv.withHealth (.error (.errorf "connection refused")),
          demoEnv.withHealth (.ok [])] freshSd)) = 1 :=
  have h := cache_exclusivity demoEnv
    [demoEnv.withHealth (.error (.errorf "connection refused")), demoEnv.withHealth (.ok [])]
    freshSd "users-service" ⟨⟨"users-host", 50051⟩⟩ [⟨⟨"users-spare", 50051⟩⟩] ⟨1⟩
    (by rfl) (by rfl) (by rfl)
  ⟨h.2.1, h.2.2.1⟩

/-- C14 (atomicity and frame): a failed resolution leaves the cache as it was; a
successful resolution of a name that was not cached leaves the cache with exactly one
more entry, the name mapped to the returned connection, and the entry of every other
name unchanged. -/
theorem resolution_frame (E : Env) (sd : ServiceDiscovery) (name : String) :
    (∀ e : GoError, (getServiceConnection E sd name).result = .error e →
      (getServiceConnection E sd name).sd = sd) ∧
    (∀ c : ClientConn, sd.connections.get name = none →
      (getServiceConnection E sd name).result = .ok c →
      (getServiceConnection E sd name).sd.connections = sd.connections ++ [(name, c)] ∧
      (getServiceConnection E sd name).sd.connections.get name = some c ∧
      ∀ other : String, other ≠ name →
        (getServiceConnection E sd name).sd.connections.get other =
          sd.connections.get other) := by
  constructor
  · intro e h
    unfold getServiceConnection at h ⊢
    cases hget : sd.connections.get name with
    | some conn => rfl
    | none =>
      simp only [hget] at h ⊢
      cases hreg : E.health name with
      | error err => rfl
      | ok services =>
        cases services with
        | nil => rfl
        | cons entry more =>
          simp only [hreg] at h ⊢
          cases hdial : E.dial (dialAddress entry.Service) with
          | error err => rfl
          | ok conn => simp [hdial] at h
  · intro c hmiss h
    refine ⟨?_, getServiceConnection_ok_cached E sd name c h,
      fun other hne => getServiceConnection_get_other E sd name other hne⟩
    unfold getServiceConnection at h ⊢
    simp only [hmiss] at h ⊢
    cases hreg : E.health name with
    | error err => simp [hreg] at h
    | ok services =>
      cases services with
      | nil => simp [hreg] at h
      | cons entry more =>
        simp only [hreg] at h ⊢
        cases hdial : E.dial (dialAddress entry.Service) with
        | error err => simp [hdial] at h
        | ok conn =>
          simp only [hdial] at h ⊢
          rw [← Except.ok.inj h]
          exact ConnMap.set_of_get_none _ _ _ hmiss

/-- C14 on a gateway that holds the products connection: a failed resolution of the
users service with the registry down, and a successful one. -/
theorem resolution_frame_witness :
    (getServiceConnection (demoEnv.withHealth (.error (.errorf "connection refused")))
        ⟨[("products-service", ⟨2⟩)]⟩ "users-service").sd =
      ⟨[("products-service", ⟨2⟩)]⟩ ∧
    (getServiceConnection demoEnv ⟨[("products-service", ⟨2⟩)]⟩
        "users-service").sd.connections =
      [("products-service", ⟨2⟩)] ++ [("users-service", ⟨1⟩)] :=
  ⟨(resolution_frame (demoEnv.withHealth (.error (.errorf "connection refused")))
      ⟨[("products-service", ⟨2⟩)]⟩ "users-service").1 _ (by rfl),
    ((resolution_frame demoEnv ⟨[("products-service", ⟨2⟩)]⟩ "users-service").2 ⟨1⟩
      (by rfl) (by rfl)).1⟩

end Practical3

namespace Practical3

/-- C15 (resolution failure before the body): on `createUserHandler` and
`createProductHandler`, whatever the body, when the client resolution fails with `e`
the handler answers `http.Error(w, "Service unavailable: <e>", 503)` having done nothing
but the resolution: the body is not decoded and no remote call is issued. -/
theorem resolution_failure_precedence (E : Env) (sd : ServiceDiscovery) (r : Request) :
    (∀ e : GoError, (getUsersClient E sd).result = .error e →
      createUserHandler E sd r =
        ⟨.error ("Service unavailable: " ++ e.Error) 503, (getUsersClient E sd).sd,
          (getUsersClient E sd).trace⟩ ∧
      (createUserHandler E sd r).response.status = 503 ∧
      Event.decode ∉ (createUserHandler E sd r).trace ∧
      ∀ method conn, Event.rpc method conn ∉ (createUserHandler E sd r).trace) ∧
    (∀ e : GoError, (getProductsClient E sd).result = .error e →
      createProductHandler E sd r =
        ⟨.error ("Service unavailable: " ++ e.Error) 503, (getProductsClient E sd).sd,
          (getProductsClient E sd).trace⟩ ∧
      (createProductHandler E sd r).response.status = 503 ∧
      Event.decode ∉ (createProductHandler E sd r).trace ∧
      ∀ method conn, Event.rpc method conn ∉ (createProductHandler E sd r).trace) := by
  constructor
  · intro e hres
    have hval : createUserHandler E sd r =
        ⟨.error ("Service unavailable: " ++ e.Error) 503, (getUsersClient E sd).sd,
          (getUsersClient E sd).trace⟩ := by
      simp only [createUserHandler, hres]
    rw [hval]
    refine ⟨rfl, rfl, ?_, ?_⟩
    · intro hmem
      rcases getServiceConnection_trace_cases E sd _ _ hmem with ⟨n, hn⟩ | ⟨a, ha⟩
      · cases hn
      · cases ha
    · intro method conn hmem
      rcases getServiceConnection_trace_cases E sd _ _ hmem with ⟨n, hn⟩ | ⟨a, ha⟩
      · cases hn
      · cases ha
  · intro e hres
    have hval : createProductHandler E sd r =
        ⟨.error ("Service unavailable: " ++ e.Error) 503, (getProductsClient E sd).sd,
          (getProductsClient E sd).trace⟩ := by
      simp only [createProductHandler, hres]
    rw [hval]
    refine ⟨rfl, rfl, ?_, ?_⟩
    · intro hmem
      rcases getServiceConnection_trace_cases E sd _ _ hmem with ⟨n, hn⟩ | ⟨a, ha⟩
      · cases hn
      · cases ha
    · intro method conn hmem
      rcases getServiceConnection_trace_cases E sd _ _ hmem with ⟨n, hn⟩ | ⟨a, ha⟩
      · cases hn
      · cases ha

/-- C15 on a fresh gateway whose registry has no instance: a create request with a body
that decodes and one with a body that does not. -/
theorem resolution_failure_precedence_witness :
    (createUserHandler (demoEnv.withHealth (.ok [])) freshSd ⟨idVars "", "alice"⟩).response =
      .error ("Service unavailable: " ++
        (GoError.errorf "no healthy instances of service users-service found").Error) 503 ∧
    (createProductHandler (demoEnv.withHealth (.ok [])) freshSd ⟨idVars "", ""⟩).trace =
      [.registry "products-service"] :=
  ⟨congrArg Handled.response
      ((resolution_failure_precedence (demoEnv.withHealth (.ok [])) freshSd
        ⟨idVars "", "alice"⟩).1
        (.errorf "no healthy instances of service users-service found") (by rfl)).1,
    congrArg Handled.trace
      ((resolution_failure_precedence (demoEnv.withHealth (.ok [])) freshSd
        ⟨idVars "", ""⟩).2
        (.errorf "no healthy instances of service products-service found") (by rfl)).1⟩

end Practical3

/-! ## Routing of practical2 -/

namespace Practical2

open Practical3

/-- A split is never empty. -/
theorem splitChars_ne_nil (sep : Char) (cs : List Char) : splitChars sep cs ≠ [] := by
  cases cs with
  | nil => simp [splitChars]
  | cons c cs =>
    unfold splitChars
    by_cases hc : c = sep
    · simp [hc]
    · simp only [hc, if_false]
      cases splitChars sep cs <;> simp

/-- The split of a sequence that starts with another character. -/
theorem splitChars_cons_of_ne (sep c : Char) (cs : List Char) (h : ¬ c = sep) :
    splitChars sep (c :: cs) =
      match splitChars sep cs with
      | [] => [[c]]
      | seg :: segs => (c :: seg) :: segs := by
  rw [splitChars]
  simp only [h, if_false]

/-- A word without separator, followed by a separator, is the first segment. -/
theorem splitChars_append (sep : Char) (w cs : List Char) (hw : sep ∉ w) :
    splitChars sep (w ++ sep :: cs) = w :: splitChars sep cs := by
  induction w with
  | nil => simp [splitChars]
  | cons c w ih =>
    have hc : ¬ c = sep := fun h => hw (by simp [h])
    have hw2 : sep ∉ w := fun h => hw (by simp [h])
    rw [List.cons_append, splitChars_cons_of_ne sep c _ hc, ih hw2]

/-- Joining at least two strings. -/
theorem Join_cons (a : String) (rest : List String) (sep : String) (hne : rest ≠ []) :
    Join (a :: rest) sep = a ++ sep ++ Join rest sep := by
  cases rest with
  | nil => exact absurd rfl hne
  | cons b more => rfl

/-- A character in front of the first string comes out in front of the join. -/
theorem Join_mk_cons (c : Char) (seg : List Char) (segs : List String) (sep : String) :
    Join (String.mk (c :: seg) :: segs) sep =
      String.mk (c :: (Join (String.mk seg :: segs) sep).data) := by
  cases segs with
  | nil => rfl
  | cons b more =>
    simp only [Join]
    apply String.ext
    simp [String.data_append]

/-- Joining the segments of a split with the separator gives the sequence back. -/
theorem Join_splitChars (sep : Char) (cs : List Char) :
    Join ((splitChars sep cs).map String.mk) (String.singleton sep) = String.mk cs := by
  induction cs with
  | nil => rfl
  | cons c cs ih =>
    unfold splitChars
    by_cases hc : c = sep
    · simp only [hc, if_true, List.map_cons]
      rw [Join_cons _ _ _ (by simpa using splitChars_ne_nil sep cs), ih]
      apply String.ext
      simp [String.data_append, String.singleton]
    · simp only [hc, if_false]
      cases hs : splitChars sep cs with
      | nil => exact absurd hs (splitChars_ne_nil sep cs)
      | cons seg segs =>
        rw [hs] at ih
        simp only [List.map_cons] at ih ⊢
        rw [Join_mk_cons, ih]

/-- Joining the split of a string gives the string back. -/
theorem Join_Split (s : String) : Join (Split s '/') "/" = s :=
  Join_splitChars '/' s.data

/-- One leading slash is removed. -/
theorem TrimPrefix_slash (s : String) : TrimPrefix ("/" ++ s) "/" = s := by
  have hd : ("/" ++ s).data = '/' :: s.data := by rw [String.data_append]; rfl
  have hp : ("/" : String).data = ['/'] := rfl
  unfold TrimPrefix
  rw [hd, hp]
  simp [List.isPrefixOf]

/-- The segments of a path start with the word before its second slash. -/
theorem pathSegments_slash_word (w s : String) (hw : '/' ∉ w.data) :
    pathSegments ("/" ++ (w ++ "/" ++ s)) = w :: Split s '/' := by
  unfold pathSegments
  rw [TrimPrefix_slash]
  unfold Split
  have hd : (w ++ "/" ++ s).data = w.data ++ '/' :: s.data := by
    rw [String.data_append, String.data_append]
    simp
  rw [hd, splitChars_append '/' _ _ hw]
  rfl

/-- The segments of a word, a slash and a rest. -/
theorem Split_word (w s : String) (hw : '/' ∉ w.data) :
    Split (w ++ "/" ++ s) '/' = w :: Split s '/' := by
  unfold Split
  have hd : (w ++ "/" ++ s).data = w.data ++ '/' :: s.data := by
    rw [String.data_append, String.data_append]
    simp
  rw [hd, splitChars_append '/' _ _ hw]
  rfl

/-- The split of a string is never empty. -/
theorem Split_ne_nil (s : String) : Split s '/' ≠ [] := by
  unfold Split
  simpa using splitChars_ne_nil '/' s.data

end Practical2

namespace Practical2

open Practical3

/-- A path under `/api/` starts with the segment `api`, then come the segments of the
rest. -/
theorem pathSegments_api (q : String) : pathSegments ("/api/" ++ q) = "api" :: Split q '/' := by
  have hpath : "/api/" ++ q = "/" ++ ("api" ++ "/" ++ q) := by
    apply String.ext
    simp [String.data_append]
  rw [hpath]
  exact pathSegments_slash_word "api" q (by decide)

/-- A path under `/api/<word>/` has the segments `api`, the word, and those of the
rest. -/
theorem pathSegments_api_word (w rest : String) (hw : '/' ∉ w.data) :
    pathSegments ("/api/" ++ (w ++ "/" ++ rest)) = "api" :: w :: Split rest '/' := by
  rw [pathSegments_api, Split_word w rest hw]

/-- The name looked up for an accepted path. -/
theorem routeRequest_lookups (E : Env) (path : String)
    (h : ¬ ((pathSegments path).length < 3 ∨ (pathSegments path).getD 0 "" ≠ "api")) :
    (routeRequest E path).lookups = [(pathSegments path).getD 1 "" ++ "-service"] := by
  unfold routeRequest
  rw [if_neg h]
  simp only
  cases discoverService E ((pathSegments path).getD 1 "" ++ "-service") <;> rfl

/-- Every path `/api/<word>/<rest>` is accepted and looks up `<word>-service`. -/
theorem routeRequest_api_word (E : Env) (w rest : String) (hw : '/' ∉ w.data) :
    (routeRequest E ("/api/" ++ (w ++ "/" ++ rest))).lookups = [w ++ "-service"] := by
  have hseg := pathSegments_api_word w rest hw
  have hlen : 0 < (Split rest '/').length := List.length_pos.mpr (Split_ne_nil rest)
  have hacc : ¬ ((pathSegments ("/api/" ++ (w ++ "/" ++ rest))).length < 3 ∨
      (pathSegments ("/api/" ++ (w ++ "/" ++ rest))).getD 0 "" ≠ "api") := by
    rw [hseg]
    simp only [List.length_cons, List.getD_cons_zero, ne_eq, not_true_eq_false, or_false]
    omega
  rw [routeRequest_lookups E _ hacc, hseg]
  rfl

/-- C12 (routing rule): `routeRequest` answers 400 "Invalid request path" exactly when
the path, after removing one leading slash and splitting at the slashes, has fewer than
three segments or a first segment other than `api`; for an accepted path the service
looked up is the second segment followed by `-service`; every path
`/api/users/<rest>` looks up `users-service` and every `/api/products/<rest>` looks up
`products-service`. -/
theorem routing_rule (E : Env) (path rest : String) :
    ((routeRequest E path).outcome = .error "Invalid request path" 400 ↔
      ((pathSegments path).length < 3 ∨ (pathSegments path).getD 0 "" ≠ "api")) ∧
    ((∃ msg, (routeRequest E path).outcome = .error msg 400) ↔
      ((pathSegments path).length < 3 ∨ (pathSegments path).getD 0 "" ≠ "api")) ∧
    (((pathSegments path).length < 3 ∨ (pathSegments path).getD 0 "" ≠ "api") →
      (routeRequest E path).lookups = []) ∧
    (¬ ((pathSegments path).length < 3 ∨ (pathSegments path).getD 0 "" ≠ "api") →
      (routeRequest E path).lookups = [(pathSegments path).getD 1 "" ++ "-service"]) ∧
    (routeRequest E ("/api/users/" ++ rest)).lookups = ["users-service"] ∧
    (routeRequest E ("/api/products/" ++ rest)).lookups = ["products-service"] := by
  have hrej : ((pathSegments path).length < 3 ∨ (pathSegments path).getD 0 "" ≠ "api") →
      routeRequest E path = ⟨[], .error "Invalid request path" 400⟩ := by
    intro h
    unfold routeRequest
    rw [if_pos h]
  have hacc : ¬ ((pathSegments path).length < 3 ∨ (pathSegments path).getD 0 "" ≠ "api") →
      ∀ msg, (routeRequest E path).outcome ≠ .error msg 400 := by
    intro h msg
    unfold routeRequest
    rw [if_neg h]
    simp only
    cases discoverService E ((pathSegments path).getD 1 "" ++ "-service") <;> simp
  have husers : "/api/users/" ++ rest = "/api/" ++ ("users" ++ "/" ++ rest) := by
    apply String.ext
    simp [String.data_append]
  have hproducts : "/api/products/" ++ rest = "/api/" ++ ("products" ++ "/" ++ rest) := by
    apply String.ext
    simp [String.data_append]
  refine ⟨⟨?_, ?_⟩, ⟨?_, ?_⟩, ?_, routeRequest_lookups E path, ?_, ?_⟩
  · intro hout
    by_contra h
    exact hacc h _ hout
  · intro h
    rw [hrej h]
  · rintro ⟨msg, hout⟩
    by_contra h
    exact hacc h msg hout
  · intro h
    exact ⟨_, by rw [hrej h]⟩
  · intro h
    rw [hrej h]
  · rw [husers]
    exact routeRequest_api_word E "users" rest (by decide)
  · rw [hproducts]
    exact routeRequest_api_word E "products" rest (by decide)

/-- C12 on the path `/api/users/123` of the demonstration deployment: it is accepted
and `users-service` is looked up. -/
theorem routing_rule_witness :
    (routeRequest demoEnv "/api/users/123").lookups =
      [(pathSegments "/api/users/123").getD 1 "" ++ "-service"] ∧
    (routeRequest demoEnv "/users/123").lookups = [] :=
  ⟨(routing_rule demoEnv "/api/users/123" "").2.2.2.1 (by decide),
    (routing_rule demoEnv "/users/123" "").2.2.1 (by decide)⟩

/-- C13 (path rewrite): for every path `/api/<q>` the rewritten path is `/<q>`, the
path without its leading `/api`, with every empty segment and trailing slash kept;
whenever the request is forwarded it is forwarded with that path, and it is forwarded
as soon as the path is accepted and the service is discovered. -/
theorem path_rewrite (E : Env) (q : String) :
    forwardPath ("/api/" ++ q) = "/" ++ q ∧
    (∀ (url : URL) (fwd : String),
      (routeRequest E ("/api/" ++ q)).outcome = .forward url fwd → fwd = "/" ++ q) ∧
    (∀ url : URL, 3 ≤ (pathSegments ("/api/" ++ q)).length →
      discoverService E ((pathSegments ("/api/" ++ q)).getD 1 "" ++ "-service") = .ok url →
      (routeRequest E ("/api/" ++ q)).outcome = .forward url ("/" ++ q)) := by
  have hfwd : forwardPath ("/api/" ++ q) = "/" ++ q := by
    unfold forwardPath
    rw [pathSegments_api]
    simp only [List.drop_succ_cons, List.drop_zero]
    rw [Join_Split]
  refine ⟨hfwd, ?_, ?_⟩
  · intro url fwd hout
    unfold routeRequest at hout
    split at hout
    · simp at hout
    · simp only at hout
      cases hd : discoverService E
          ((pathSegments ("/api/" ++ q)).getD 1 "" ++ "-service") with
      | error err =>
        rw [hd] at hout
        cases hout
      | ok found =>
        rw [hd] at hout
        have hpath := (Outcome.forward.inj hout).2
        rw [← hpath, hfwd]
  · intro url hlen hd
    have hacc : ¬ ((pathSegments ("/api/" ++ q)).length < 3 ∨
        (pathSegments ("/api/" ++ q)).getD 0 "" ≠ "api") := by
      rw [pathSegments_api] at hlen ⊢
      simp only [List.getD_cons_zero, ne_eq, not_true_eq_false, or_false]
      omega
    unfold routeRequest
    rw [if_neg hacc]
    simp only [hd, hfwd]

/-- C13 in the demonstration deployment, on a path with an empty segment and a trailing
slash. -/
theorem path_rewrite_witness :
    (routeRequest demoEnv ("/api/" ++ "users//123/")).outcome =
      .forward ⟨"http://users-host:8081"⟩ ("/" ++ "users//123/") :=
  (path_rewrite demoEnv "users//123/").2.2 ⟨"http://users-host:8081"⟩ (by decide) (by rfl)

end Practical2
